import Mathlib

/-!
Verification of the metrics/aggregation engine of `src/dashboard.py`.

The numeric columns are embedded as exact rationals; dates are embedded as
day ordinals (days since 1970-01-01, matching pandas Timestamp day
arithmetic).  Every definition below mirrors one formula of the source,
with the dashboard.py line numbers given in its doc comment.
-/

namespace Dash

/-- One row of `marketing_data.csv` as loaded by `load_data` (dashboard.py:46-50).
The `roas`, `cpc` and `ctr_percentage` columns are precomputed per-record
ratios that come with the CSV (spec §3). -/
structure Record where
  created_date : ℤ
  client_name : String
  industry : String
  campaign_objective : String
  amount_spent : ℚ
  purchase_value : ℚ
  impressions : ℚ
  clicks : ℚ
  add_to_cart : ℚ
  purchase : ℚ
  roas : ℚ
  cpc : ℚ
  ctr_percentage : ℚ
  is_weekend : Bool
  is_ramadhan : Bool
  deriving DecidableEq

/-- A view is a filtered list of records (spec §3). -/
abbrev View := List Record

/-- Column sum over a view, the pandas `df[col].sum()`. -/
def sumBy (f : Record → ℚ) (v : View) : ℚ := (v.map f).sum

/-- Column mean over a view, the pandas `df[col].mean()`.  It is only ever
applied to nonempty views or groups in the theorems below, matching the
dashboard, which stops on an empty filtered view (dashboard.py:110-112). -/
def meanBy (f : Record → ℚ) (v : View) : ℚ :=
  (v.map f).sum / ((v.map f).length : ℚ)

/-- dashboard.py:157 -/
def curr_spend (v : View) : ℚ := sumBy (fun r => r.amount_spent) v

/-- dashboard.py:158 -/
def curr_purchase (v : View) : ℚ := sumBy (fun r => r.purchase_value) v

/-- dashboard.py:159: headline ROAS card is the mean of the per-record column. -/
def curr_roas (v : View) : ℚ := meanBy (fun r => r.roas) v

/-- dashboard.py:160 -/
def curr_cpc (v : View) : ℚ := meanBy (fun r => r.cpc) v

/-- dashboard.py:161 -/
def curr_ctr (v : View) : ℚ := meanBy (fun r => r.ctr_percentage) v

/-- dashboard.py:357-359: the Performance section blended CTR,
`(total_clicks / total_impressions * 100) if total_impressions > 0 else 0`. -/
def overall_ctr (v : View) : ℚ :=
  if 0 < sumBy (fun r => r.impressions) v then
    sumBy (fun r => r.clicks) v / sumBy (fun r => r.impressions) v * 100
  else 0

/-- dashboard.py:361-366: the blended Overall ROAS,
`(total_omzet / total_spend) if total_spend > 0 else 0`. -/
def overall_roas_metric (v : View) : ℚ :=
  if 0 < curr_spend v then curr_purchase v / curr_spend v else 0

/-- dashboard.py:145-154: `calculate_delta`.  `none` models the Python `None`
returned when the previous value is 0 (the "unavailable" marker); for the
percentage family the displayed number is the point difference, otherwise
the relative change in percent. -/
def calculate_delta (current_val prev_val : ℚ) (is_percentage : Bool) : Option ℚ :=
  if prev_val = 0 then none
  else if is_percentage then some (current_val - prev_val)
  else some ((current_val - prev_val) / prev_val * 100)

/-- dashboard.py:164 -/
def prev_spend (v : View) : ℚ := sumBy (fun r => r.amount_spent) v

/-- dashboard.py:165 -/
def prev_purchase (v : View) : ℚ := sumBy (fun r => r.purchase_value) v

/-- dashboard.py:166: `mean() if not empty else 0`. -/
def prev_roas (v : View) : ℚ := if v.isEmpty then 0 else meanBy (fun r => r.roas) v

/-- dashboard.py:167 -/
def prev_cpc (v : View) : ℚ := if v.isEmpty then 0 else meanBy (fun r => r.cpc) v

/-- dashboard.py:168 -/
def prev_ctr (v : View) : ℚ :=
  if v.isEmpty then 0 else meanBy (fun r => r.ctr_percentage) v

/-- dashboard.py:129: `delta_days = (current_end - current_start).days`. -/
def delta_days (s e : ℤ) : ℤ := e - s

/-- dashboard.py:132: `prev_end = current_start - Timedelta(days=1)`. -/
def prev_end (s : ℤ) : ℤ := s - 1

/-- dashboard.py:133: `prev_start = prev_end - Timedelta(days=delta_days)`. -/
def prev_start (s e : ℤ) : ℤ := prev_end s - delta_days s e

/-- dashboard.py:103-106: the current-period filter mask. -/
def mask (clients objectives : List String) (s e : ℤ) (r : Record) : Bool :=
  clients.contains r.client_name && objectives.contains r.campaign_objective
    && decide (s ≤ r.created_date) && decide (r.created_date ≤ e)

/-- dashboard.py:108 -/
def filtered_view (df : View) (clients objectives : List String) (s e : ℤ) : View :=
  df.filter (mask clients objectives s e)

/-- dashboard.py:137-140: the previous-period mask, written out separately in
the source; it keeps the client/objective predicate and swaps in the derived
previous date range. -/
def mask_prev (clients objectives : List String) (s e : ℤ) (r : Record) : Bool :=
  clients.contains r.client_name && objectives.contains r.campaign_objective
    && decide (prev_start s e ≤ r.created_date) && decide (r.created_date ≤ prev_end s)

/-- dashboard.py:142 -/
def prev_filtered_view (df : View) (clients objectives : List String) (s e : ℤ) : View :=
  df.filter (mask_prev clients objectives s e)

/-- Inclusive day count of the range `[a, b]`, the measure the spec uses when
it says a range "spans" a number of days. -/
def specSpanDays (a b : ℤ) : ℤ := b - a + 1

/-- Day ordinal (days since 1970-01-01) of a calendar date, by the standard
civil-calendar conversion; used to state the concrete 2023 date example and
to truncate a date to its month below. -/
def daysFromCivil (y m d : ℤ) : ℤ :=
  let y2 := if m ≤ 2 then y - 1 else y
  let era := y2.fdiv 400
  let yoe := y2 - era * 400
  let mp := if 2 < m then m - 3 else m + 9
  let doy := (153 * mp + 2).fdiv 5 + (d - 1)
  let doe := yoe * 365 + yoe.fdiv 4 - yoe.fdiv 100 + doy
  era * 146097 + doe - 719468

/-- Inverse civil-calendar conversion: day ordinal to (year, month, day). -/
def civilFromDays (z : ℤ) : ℤ × ℤ × ℤ :=
  let z2 := z + 719468
  let era := z2.fdiv 146097
  let doe := z2 - era * 146097
  let yoe := (doe - doe.fdiv 1460 + doe.fdiv 36524 - doe.fdiv 146096).fdiv 365
  let y := yoe + era * 400
  let doy := doe - (365 * yoe + yoe.fdiv 4 - yoe.fdiv 100)
  let mp := (5 * doy + 2).fdiv 153
  let d := doy - (153 * mp + 2).fdiv 5 + 1
  let m := if mp < 10 then mp + 3 else mp - 9
  (if m ≤ 2 then y + 1 else y, m, d)

/-- dashboard.py:492: `dt.to_period(M)` truncates a date to its (year, month). -/
def monthKey (z : ℤ) : ℤ × ℤ := ((civilFromDays z).1, (civilFromDays z).2.1)

/-- dashboard.py:1041: `transfer_amount = source_spend * (transfer_pct / 100)`. -/
def transfer_amount (source_spend transfer_pct : ℚ) : ℚ :=
  source_spend * (transfer_pct / 100)

/-- dashboard.py:1047: `rev_lost = transfer_amount * source_roas`. -/
def rev_lost (t source_roas : ℚ) : ℚ := t * source_roas

/-- dashboard.py:1049: `rev_gained = transfer_amount * target_roas`. -/
def rev_gained (t target_roas : ℚ) : ℚ := t * target_roas

/-- dashboard.py:1051: `net_revenue_impact = rev_gained - rev_lost`. -/
def net_revenue_impact (t source_roas target_roas : ℚ) : ℚ :=
  rev_gained t target_roas - rev_lost t source_roas

/-- dashboard.py:1058: guarded ratio of current revenue to global spend. -/
def old_global_roas (current_total_rev total_spend_global : ℚ) : ℚ :=
  if 0 < total_spend_global then current_total_rev / total_spend_global else 0

/-- dashboard.py:1054,1059: `new_total_rev = current_total_rev + net_revenue_impact`
divided by the unchanged `total_spend_global`. -/
def new_global_roas (current_total_rev net total_spend_global : ℚ) : ℚ :=
  if 0 < total_spend_global then (current_total_rev + net) / total_spend_global else 0

/-- C3: the reallocation simulator computes `transfer_amount = source_spend * transfer_pct/100`,
`revenue_lost = transfer_amount * source_roas`, `revenue_gained = transfer_amount * target_roas`,
`net_impact = revenue_gained - revenue_lost`, and (for positive global spend)
`new_global_roas = (global_current_revenue + net_impact) / global_total_spend` with the
denominator the unchanged global spend; at the concrete instance
`source_spend = 1000000, source_roas = 1/2, target_roas = 2, transfer_pct = 50` the
figures are 500000, 250000, 1000000 and 750000. -/
theorem C3_simulator_formulas :
    (∀ s p src tgt rev spend : ℚ, 0 < spend →
      net_revenue_impact (transfer_amount s p) src tgt
          = rev_gained (transfer_amount s p) tgt - rev_lost (transfer_amount s p) src
        ∧ new_global_roas rev (net_revenue_impact (transfer_amount s p) src tgt) spend
          = (rev + net_revenue_impact (transfer_amount s p) src tgt) / spend
        ∧ old_global_roas rev spend = rev / spend)
    ∧ transfer_amount 1000000 50 = 500000
    ∧ rev_lost (transfer_amount 1000000 50) (1 / 2) = 250000
    ∧ rev_gained (transfer_amount 1000000 50) 2 = 1000000
    ∧ net_revenue_impact (transfer_amount 1000000 50) (1 / 2) 2 = 750000 := by
  refine ⟨fun s p src tgt rev spend hs => ⟨rfl, ?_, ?_⟩, ?_, ?_, ?_, ?_⟩
  · rw [new_global_roas, if_pos hs]
  · rw [old_global_roas, if_pos hs]
  · norm_num [transfer_amount]
  · norm_num [transfer_amount, rev_lost]
  · norm_num [transfer_amount, rev_gained]
  · norm_num [transfer_amount, net_revenue_impact, rev_gained, rev_lost]

/-- Witness for C3 at a concrete positive global spend. -/
theorem C3_simulator_formulas_witness :
    new_global_roas 10 (net_revenue_impact (transfer_amount 4 50) 1 2) 5
      = (10 + net_revenue_impact (transfer_amount 4 50) 1 2) / 5 :=
  ((C3_simulator_formulas.1 4 50 1 2 10 5 (by norm_num)).2).1

/-- C4: the previous period ends the day before the current start and begins
`delta_days` earlier, so it spans exactly as many days as the current range;
for start 2023-03-01 and end 2023-03-10 it is [2023-02-19, 2023-02-28]; and
the previous view applies the same client/objective predicate over the
previous range. -/
theorem C4_previous_period :
    (∀ s e : ℤ, s ≤ e →
      specSpanDays (prev_start s e) (prev_end s) = specSpanDays s e)
    ∧ prev_end (daysFromCivil 2023 3 1) = daysFromCivil 2023 2 28
    ∧ prev_start (daysFromCivil 2023 3 1) (daysFromCivil 2023 3 10)
        = daysFromCivil 2023 2 19
    ∧ ∀ df clients objectives s e,
        prev_filtered_view df clients objectives s e
          = filtered_view df clients objectives (prev_start s e) (prev_end s) := by
  refine ⟨fun s e _ => ?_, by decide, by decide, fun df clients objectives s e => rfl⟩
  unfold specSpanDays prev_start prev_end delta_days
  ring

/-- Witness for C4: the span identity at the ordinals of 2023-03-01 and 2023-03-10. -/
theorem C4_previous_period_witness :
    specSpanDays (prev_start 19417 19426) (prev_end 19417) = specSpanDays 19417 19426 :=
  C4_previous_period.1 19417 19426 (by norm_num)

/-- C7: `calculate_delta` returns the relative change `(current - previous)/previous * 100`
whenever the previous value is nonzero, returns the unavailable marker (never zero) when
the previous value is zero, and on an empty previous-period view every one of the five
headline deltas is unavailable. -/
theorem C7_delta_unavailable :
    (∀ c p : ℚ, p ≠ 0 → calculate_delta c p false = some ((c - p) / p * 100))
    ∧ (∀ (c : ℚ) (b : Bool), calculate_delta c 0 b = none)
    ∧ (∀ v : View, v = [] → ∀ (c : ℚ) (b : Bool),
        calculate_delta c (prev_spend v) b = none
        ∧ calculate_delta c (prev_purchase v) b = none
        ∧ calculate_delta c (prev_roas v) b = none
        ∧ calculate_delta c (prev_cpc v) b = none
        ∧ calculate_delta c (prev_ctr v) b = none) := by
  refine ⟨fun c p hp => ?_, fun c b => ?_, fun v hv c b => ?_⟩
  · simp [calculate_delta, hp]
  · rw [calculate_delta, if_pos rfl]
  · subst hv
    refine ⟨?_, ?_, ?_, ?_, ?_⟩ <;>
      simp [calculate_delta, prev_spend, prev_purchase, prev_roas, prev_cpc, prev_ctr,
        sumBy]

/-- Witness for C7: a concrete nonzero previous value gives the relative change. -/
theorem C7_delta_unavailable_witness : calculate_delta 5 2 false = some 150 := by
  rw [C7_delta_unavailable.1 5 2 (by norm_num)]
  norm_num

/-- C10: with positive transfer amount and positive global spend, the net impact is
positive iff the target ROAS exceeds the source ROAS, zero iff they are equal, and the
projected global ROAS is the old one shifted by `net_impact / global_total_spend`. -/
theorem C10_reallocation_sign :
    ∀ t src tgt rev spend : ℚ, 0 < t → 0 < spend →
      (0 < net_revenue_impact t src tgt ↔ src < tgt)
      ∧ (net_revenue_impact t src tgt = 0 ↔ src = tgt)
      ∧ new_global_roas rev (net_revenue_impact t src tgt) spend
          = old_global_roas rev spend + net_revenue_impact t src tgt / spend := by
  intro t src tgt rev spend ht hs
  have hnet : net_revenue_impact t src tgt = t * (tgt - src) := by
    unfold net_revenue_impact rev_gained rev_lost
    ring
  refine ⟨?_, ?_, ?_⟩
  · rw [hnet]
    constructor
    · intro h
      nlinarith
    · intro h
      nlinarith
  · rw [hnet, mul_eq_zero]
    constructor
    · rintro (h | h)
      · exact absurd h (ne_of_gt ht)
      · linarith [sub_eq_zero.mp h]
    · intro h
      right
      rw [h, sub_self]
  · rw [new_global_roas, old_global_roas, if_pos hs, if_pos hs, add_div]

/-- Witness for C10 at transfer 1, source ROAS 1, target ROAS 2, revenue 10, spend 5. -/
theorem C10_reallocation_sign_witness :
    (0 < net_revenue_impact 1 1 2 ↔ (1 : ℚ) < 2)
    ∧ (net_revenue_impact 1 1 2 = 0 ↔ (1 : ℚ) = 2)
    ∧ new_global_roas 10 (net_revenue_impact 1 1 2) 5
        = old_global_roas 10 5 + net_revenue_impact 1 1 2 / 5 :=
  C10_reallocation_sign 1 1 2 10 5 (by norm_num) (by norm_num)

/-- dashboard.py:318: the per-objective group of the view. -/
def objGroup (v : View) (k : String) : View :=
  v.filter (fun r => r.campaign_objective == k)

/-- dashboard.py:318: `roas_by_obj = filtered_df.groupby(campaign_objective)[roas].mean()`,
the group mean of the per-record ROAS column. -/
def roas_by_obj (v : View) (k : String) : ℚ := meanBy (fun r => r.roas) (objGroup v k)

/-- dashboard.py:882: the per-client group. -/
def clientGroup (v : View) (c : String) : View := v.filter (fun r => r.client_name == c)

/-- dashboard.py:882-883: `client_matrix` ROAS,
`np.where(amount_spent > 0, purchase_value / amount_spent, 0)` on per-client sums. -/
def client_matrix_roas (v : View) (c : String) : ℚ :=
  if 0 < sumBy (fun r => r.amount_spent) (clientGroup v c) then
    sumBy (fun r => r.purchase_value) (clientGroup v c)
      / sumBy (fun r => r.amount_spent) (clientGroup v c)
  else 0

/-- dashboard.py:675: the per-industry group. -/
def industryGroup (v : View) (i : String) : View := v.filter (fun r => r.industry == i)

/-- dashboard.py:675-679: `industry_perf` ROAS,
`np.where(total_spend > 0, total_revenue / total_spend, 0)` on per-industry sums. -/
def industry_roas (v : View) (i : String) : ℚ :=
  if 0 < sumBy (fun r => r.amount_spent) (industryGroup v i) then
    sumBy (fun r => r.purchase_value) (industryGroup v i)
      / sumBy (fun r => r.amount_spent) (industryGroup v i)
  else 0

/-- dashboard.py:686: the (client, industry) pair group. -/
def clientIndustryGroup (v : View) (c i : String) : View :=
  v.filter (fun r => r.client_name == c && r.industry == i)

/-- dashboard.py:686-687: `client_perf` ROAS on per-(client, industry) sums. -/
def client_perf_roas (v : View) (c i : String) : ℚ :=
  if 0 < sumBy (fun r => r.amount_spent) (clientIndustryGroup v c i) then
    sumBy (fun r => r.purchase_value) (clientIndustryGroup v c i)
      / sumBy (fun r => r.amount_spent) (clientIndustryGroup v c i)
  else 0

/-- dashboard.py:492-493: the per-month group, keyed by the (year, month) of the date. -/
def monthGroup (v : View) (k : ℤ × ℤ) : View :=
  v.filter (fun r => monthKey r.created_date == k)

/-- dashboard.py:492-494: `monthly_trend` ROAS,
`np.where(amount_spent > 0, purchase_value / amount_spent, 0)` on per-month sums. -/
def monthly_roas (v : View) (k : ℤ × ℤ) : ℚ :=
  if 0 < sumBy (fun r => r.amount_spent) (monthGroup v k) then
    sumBy (fun r => r.purchase_value) (monthGroup v k)
      / sumBy (fun r => r.amount_spent) (monthGroup v k)
  else 0

/-- Follows the words of the spec (§3): aggregate ROAS as the ratio of sums,
0 when the group spend is 0; stated separately from the code-derived
aggregations above so that the two can be compared. -/
def specRatioOfSums (g : View) : ℚ :=
  if sumBy (fun r => r.amount_spent) g = 0 then 0
  else sumBy (fun r => r.purchase_value) g / sumBy (fun r => r.amount_spent) g

/-- Data-model assumption of the spec (§3): monetary spend is non-negative. -/
def nonnegSpend (v : View) : Prop := ∀ r ∈ v, 0 ≤ r.amount_spent

lemma sumBy_nonneg (f : Record → ℚ) (v : View) (h : ∀ r ∈ v, 0 ≤ f r) :
    0 ≤ sumBy f v := by
  refine List.sum_nonneg ?_
  intro x hx
  obtain ⟨r, hr, rfl⟩ := List.mem_map.mp hx
  exact h r hr

lemma ratio_guard_eq (g : View) (h : 0 ≤ sumBy (fun r => r.amount_spent) g) :
    (if 0 < sumBy (fun r => r.amount_spent) g then
        sumBy (fun r => r.purchase_value) g / sumBy (fun r => r.amount_spent) g
      else 0)
      = specRatioOfSums g := by
  rcases eq_or_lt_of_le h with h0 | h0
  · have hz : sumBy (fun r => r.amount_spent) g = 0 := h0.symm
    simp [specRatioOfSums, hz]
  · have hne : sumBy (fun r => r.amount_spent) g ≠ 0 := ne_of_gt h0
    simp [specRatioOfSums, hne, h0]

lemma nonnegSpend_of_filter (v : View) (p : Record → Bool) (h : nonnegSpend v) :
    ∀ r ∈ v.filter p, 0 ≤ r.amount_spent :=
  fun r hr => h r (List.mem_of_mem_filter hr)

/-- Two records with the same objective whose mean of per-record ROAS (2)
differs from the ratio of sums (5/2); also exercises the two metric
conventions of C2. -/
def recA : Record :=
  ⟨0, "A", "Fashion", "Traffic", 1, 1, 100, 10, 5, 1, 1, 1 / 10, 10, false, false⟩

def recB : Record :=
  ⟨0, "B", "Beauty", "Traffic", 3, 9, 200, 20, 5, 2, 3, 3 / 20, 10, false, false⟩

def demoView : View := [recA, recB]

/-- C1 counterexample: on `demoView` (two Traffic records with spends 1 and 3 and
purchase values 1 and 9) the aggregate ROAS the code produces for the objective
dimension is the mean of per-record ratios, 2, not the ratio of sums, 5/2 — so the
claim fails for the objective grouping. -/
theorem C1_counterexample :
    roas_by_obj demoView "Traffic" = 2
    ∧ specRatioOfSums (objGroup demoView "Traffic") = 5 / 2
    ∧ roas_by_obj demoView "Traffic" ≠ specRatioOfSums (objGroup demoView "Traffic") := by
  have hg : objGroup demoView "Traffic" = [recA, recB] := rfl
  have h1 : roas_by_obj demoView "Traffic" = 2 := by
    rw [roas_by_obj, hg]
    norm_num [meanBy, recA, recB]
  have h2 : specRatioOfSums (objGroup demoView "Traffic") = 5 / 2 := by
    rw [hg]
    norm_num [specRatioOfSums, sumBy, recA, recB]
  refine ⟨h1, h2, ?_⟩
  rw [h1, h2]
  norm_num

/-- C1 amended: for the client, industry, month and (client, industry) groupings the
aggregate ROAS of every group equals the ratio of sums for that group (0 when the
group spend is 0); the objective grouping instead reports the arithmetic mean of the
per-record ROAS values. -/
theorem C1_aggregate_ratio_of_sums :
    ∀ v : View, nonnegSpend v →
      (∀ c, client_matrix_roas v c = specRatioOfSums (clientGroup v c))
      ∧ (∀ i, industry_roas v i = specRatioOfSums (industryGroup v i))
      ∧ (∀ c i, client_perf_roas v c i = specRatioOfSums (clientIndustryGroup v c i))
      ∧ (∀ k, monthly_roas v k = specRatioOfSums (monthGroup v k))
      ∧ (∀ o, roas_by_obj v o = meanBy (fun r => r.roas) (objGroup v o)) := by
  intro v hv
  refine ⟨fun c => ?_, fun i => ?_, fun c i => ?_, fun k => ?_, fun o => rfl⟩ <;>
    exact ratio_guard_eq _ (sumBy_nonneg _ _ (nonnegSpend_of_filter v _ hv))

lemma nonnegSpend_demoView : nonnegSpend demoView := by
  intro r hr
  simp only [demoView, List.mem_cons, List.not_mem_nil, or_false] at hr
  rcases hr with rfl | rfl <;> norm_num [recA, recB]

/-- Witness for the amended C1 on the concrete `demoView`. -/
theorem C1_aggregate_ratio_of_sums_witness :
    client_matrix_roas demoView "A" = specRatioOfSums (clientGroup demoView "A") :=
  (C1_aggregate_ratio_of_sums demoView nonnegSpend_demoView).1 "A"

/-- C2: over a nonempty view the headline `roas`, `cpc` and `ctr` are arithmetic means
of the per-record columns, while the separately named blended figures are
ratio-of-sums: `overall_roas_metric` is `Σ purchase_value / Σ amount_spent` and the
Performance-section `overall_ctr` is `Σ clicks / Σ impressions * 100`; the two ROAS
conventions genuinely differ (they disagree on `demoView`), so neither stands in for
the other. -/
theorem C2_dual_convention :
    (∀ v : View, v ≠ [] →
      (v.length : ℚ) * curr_roas v = sumBy (fun r => r.roas) v
      ∧ (v.length : ℚ) * curr_cpc v = sumBy (fun r => r.cpc) v
      ∧ (v.length : ℚ) * curr_ctr v = sumBy (fun r => r.ctr_percentage) v)
    ∧ (∀ v : View, 0 < curr_spend v →
        overall_roas_metric v * curr_spend v = curr_purchase v)
    ∧ (∀ v : View, 0 < sumBy (fun r => r.impressions) v →
        overall_ctr v * sumBy (fun r => r.impressions) v = sumBy (fun r => r.clicks) v * 100)
    ∧ curr_roas demoView ≠ overall_roas_metric demoView := by
  refine ⟨fun v hv => ?_, fun v hs => ?_, fun v hi => ?_, ?_⟩
  · have hne : (v.length : ℚ) ≠ 0 := by
      exact_mod_cast fun h => hv (List.length_eq_zero.mp (by exact_mod_cast h))
    refine ⟨?_, ?_, ?_⟩ <;>
      · simp only [curr_roas, curr_cpc, curr_ctr, meanBy, sumBy, List.length_map]
        rw [mul_comm, div_mul_cancel₀ _ hne]
  · rw [overall_roas_metric, if_pos hs, div_mul_cancel₀ _ (ne_of_gt hs)]
  · rw [overall_ctr, if_pos hi]
    field_simp
  · have hmean : curr_roas demoView = 2 := by
      norm_num [curr_roas, meanBy, demoView, recA, recB]
    have hspendpos : (0 : ℚ) < curr_spend demoView := by
      norm_num [curr_spend, sumBy, demoView, recA, recB]
    have hblend : overall_roas_metric demoView = 5 / 2 := by
      rw [overall_roas_metric, if_pos hspendpos]
      norm_num [curr_purchase, curr_spend, sumBy, demoView, recA, recB]
    rw [hmean, hblend]
    norm_num

/-- Witness for C2 on the concrete nonempty `demoView`. -/
theorem C2_dual_convention_witness :
    (demoView.length : ℚ) * curr_roas demoView = sumBy (fun r => r.roas) demoView :=
  ((C2_dual_convention.1 demoView (by simp [demoView])).1)

/-- Models the numpy/pandas float division used with no zero guard at
dashboard.py:1183: a zero denominator yields a non-finite float (inf or NaN),
modelled as `none`; a finite quotient is `some`. -/
def pandasDiv (a b : ℚ) : Option ℚ := if b = 0 then none else some (a / b)

/-- dashboard.py:1182-1183: the Excel export Client Performance sheet recomputes
`roas = purchase_value / amount_spent` on per-client sums without any guard. -/
def export_client_roas (df : View) (c : String) : Option ℚ :=
  pandasDiv (sumBy (fun r => r.purchase_value) (clientGroup df c))
    (sumBy (fun r => r.amount_spent) (clientGroup df c))

/-- A view whose only record (client `A`) has zero spend and positive purchase value. -/
def zeroSpendView : View :=
  [⟨0, "A", "Fashion", "Sales", 0, 5, 0, 0, 0, 0, 0, 0, 0, false, false⟩]

/-- C6: the guarded dashboard metrics do return the 0 sentinel on a zero denominator
(shown here for the client-matrix ROAS and the blended overall CTR), but the Excel
export recomputes the per-client ROAS with an unguarded division: on a view whose
only record for client `A` has zero spend it produces a non-finite value (`none`),
so a NaN/infinity propagates into an exported aggregate row, contrary to the claim. -/
theorem C6_export_unguarded :
    client_matrix_roas zeroSpendView "A" = 0
    ∧ overall_ctr zeroSpendView = 0
    ∧ export_client_roas zeroSpendView "A" = none := by
  have hg : clientGroup zeroSpendView "A" = zeroSpendView := rfl
  have hzero : sumBy (fun r => r.amount_spent) zeroSpendView = 0 := by
    norm_num [sumBy, zeroSpendView]
  refine ⟨?_, ?_, ?_⟩
  · rw [client_matrix_roas, hg, hzero]
    norm_num
  · have hi : sumBy (fun r => r.impressions) zeroSpendView = 0 := by
      norm_num [sumBy, zeroSpendView]
    rw [overall_ctr, hi]
    norm_num
  · rw [export_client_roas, hg, hzero, pandasDiv, if_pos rfl]

/-- Value of the daily series at row index `i`. -/
def valueAt (xs : List ℚ) (i : ℕ) : ℚ := xs.getD i 0

/-- The trailing window of pandas `rolling(window=7)` at row `i`: the last up
to 7 elements of the prefix ending at `i` (exactly 7 once `6 ≤ i`). -/
def windowAt (xs : List ℚ) (i : ℕ) : List ℚ := (xs.take (i + 1)).drop (i + 1 - 7)

/-- dashboard.py:267: `rolling(window=7).mean()` at row `i`. -/
def rollingMean (xs : List ℚ) (i : ℕ) : ℚ := (windowAt xs i).sum / 7

/-- dashboard.py:268: the square of `rolling(window=7).std()` at row `i` —
pandas uses the sample convention ddof = 1, so the divisor is 7 - 1 = 6. -/
def rollingVar (xs : List ℚ) (i : ℕ) : ℚ :=
  ((windowAt xs i).map (fun x => (x - rollingMean xs i) ^ 2)).sum / 6

/-- dashboard.py:270-271: the out-of-band test
`value > mean + 2*std or value < mean - 2*std`.  Since the standard deviation
is the nonnegative square root of the variance, the test is equivalent to the
rational comparison `4 * var < (value - mean)^2`, which is the form embedded
here; rows with fewer than 7 prior points have NaN rolling statistics, both
strict float comparisons are then false, and the conjunct `6 ≤ i` encodes
exactly that.  The equivalence with the literal band form (with a real square
root) is proved in `C5_detect_characterisation`. -/
def isAnomalyAt (xs : List ℚ) (i : ℕ) : Prop :=
  6 ≤ i ∧ 4 * rollingVar xs i < (valueAt xs i - rollingMean xs i) ^ 2

instance (xs : List ℚ) (i : ℕ) : Decidable (isAnomalyAt xs i) := by
  unfold isAnomalyAt
  infer_instance

/-- dashboard.py:265-274: the flagged row indices; the guard
`len(daily_trend) > 7` makes the result empty for series of at most 7 points. -/
def detect (xs : List ℚ) : List ℕ :=
  if 7 < xs.length then
    (List.range xs.length).filter (fun i => decide (isAnomalyAt xs i))
  else []

lemma rollingVar_nonneg (xs : List ℚ) (i : ℕ) : 0 ≤ rollingVar xs i := by
  unfold rollingVar
  refine div_nonneg (List.sum_nonneg ?_) (by norm_num)
  intro x hx
  obtain ⟨y, -, rfl⟩ := List.mem_map.mp hx
  positivity

lemma mem_detect_iff (xs : List ℚ) (i : ℕ) :
    i ∈ detect xs ↔ 7 < xs.length ∧ i < xs.length ∧ isAnomalyAt xs i := by
  unfold detect
  by_cases h : 7 < xs.length
  · simp [h, List.mem_filter, List.mem_range]
  · simp [h]

lemma band_iff_sq (x m s : ℝ) (hs : 0 ≤ s) :
    (x < m - 2 * s ∨ m + 2 * s < x) ↔ 4 * s ^ 2 < (x - m) ^ 2 := by
  constructor
  · rintro (h | h) <;> nlinarith
  · intro h
    by_contra hc
    push_neg at hc
    obtain ⟨h1, h2⟩ := hc
    nlinarith

/-- The flat 10-day series with one spike of 1000 on day 8 (index 7). -/
def flatSpike : List ℚ := [100, 100, 100, 100, 100, 100, 100, 1000, 100, 100]

/-- C5: a row is flagged iff the series has more than 7 points, the row exists,
it has at least 6 predecessors, and its value lies strictly outside the band
`mean ± 2 * std` of the trailing 7-point window including the point itself;
rows with index below 6 are never flagged; a series with fewer than 8 = window+1
points yields no flags; and on the flat-100 series with a 1000 spike on day 8,
exactly index 7 (day 8) is flagged. -/
theorem C5_detect_characterisation :
    (∀ (xs : List ℚ) (i : ℕ), i ∈ detect xs ↔
      7 < xs.length ∧ i < xs.length ∧ 6 ≤ i ∧
        ((valueAt xs i : ℝ) < (rollingMean xs i : ℝ) - 2 * Real.sqrt (rollingVar xs i : ℚ)
          ∨ (rollingMean xs i : ℝ) + 2 * Real.sqrt (rollingVar xs i : ℚ) < (valueAt xs i : ℝ)))
    ∧ (∀ (xs : List ℚ) (i : ℕ), i < 6 → i ∉ detect xs)
    ∧ (∀ xs : List ℚ, xs.length < 8 → detect xs = [])
    ∧ detect flatSpike = [7] := by
  have hanom : ∀ (xs : List ℚ) (i : ℕ), isAnomalyAt xs i ↔
      6 ≤ i ∧
        ((valueAt xs i : ℝ) < (rollingMean xs i : ℝ) - 2 * Real.sqrt (rollingVar xs i : ℚ)
          ∨ (rollingMean xs i : ℝ) + 2 * Real.sqrt (rollingVar xs i : ℚ) < (valueAt xs i : ℝ)) := by
    intro xs i
    have hvar : (0 : ℝ) ≤ ((rollingVar xs i : ℚ) : ℝ) := by
      exact_mod_cast rollingVar_nonneg xs i
    have hsq : Real.sqrt ((rollingVar xs i : ℚ) : ℝ) ^ 2 = ((rollingVar xs i : ℚ) : ℝ) :=
      Real.sq_sqrt hvar
    have hband := band_iff_sq ((valueAt xs i : ℚ) : ℝ) ((rollingMean xs i : ℚ) : ℝ)
      (Real.sqrt ((rollingVar xs i : ℚ) : ℝ)) (Real.sqrt_nonneg _)
    unfold isAnomalyAt
    refine and_congr_right fun _ => ?_
    rw [hband, hsq]
    constructor
    · intro h
      exact_mod_cast h
    · intro h
      exact_mod_cast h
  refine ⟨fun xs i => ?_, fun xs i hi hm => ?_, fun xs h => ?_, ?_⟩
  · rw [mem_detect_iff, hanom]
  · rw [mem_detect_iff] at hm
    exact absurd hm.2.2.1 (by omega)
  · unfold detect
    rw [if_neg (by omega)]
  · have w6 : windowAt flatSpike 6 = [100, 100, 100, 100, 100, 100, 100] := rfl
    have w7 : windowAt flatSpike 7 = [100, 100, 100, 100, 100, 100, 1000] := rfl
    have w8 : windowAt flatSpike 8 = [100, 100, 100, 100, 100, 1000, 100] := rfl
    have w9 : windowAt flatSpike 9 = [100, 100, 100, 100, 1000, 100, 100] := rfl
    have m6 : rollingMean flatSpike 6 = 100 := by rw [rollingMean, w6]; norm_num
    have m7 : rollingMean flatSpike 7 = 1600 / 7 := by rw [rollingMean, w7]; norm_num
    have m8 : rollingMean flatSpike 8 = 1600 / 7 := by rw [rollingMean, w8]; norm_num
    have m9 : rollingMean flatSpike 9 = 1600 / 7 := by rw [rollingMean, w9]; norm_num
    have v6 : rollingVar flatSpike 6 = 0 := by
      simp only [rollingVar, w6, m6, List.map_cons, List.map_nil, List.sum_cons, List.sum_nil]
      norm_num
    have v7 : rollingVar flatSpike 7 = 5670000 / 49 := by
      simp only [rollingVar, w7, m7, List.map_cons, List.map_nil, List.sum_cons, List.sum_nil]
      norm_num
    have v8 : rollingVar flatSpike 8 = 5670000 / 49 := by
      simp only [rollingVar, w8, m8, List.map_cons, List.map_nil, List.sum_cons, List.sum_nil]
      norm_num
    have v9 : rollingVar flatSpike 9 = 5670000 / 49 := by
      simp only [rollingVar, w9, m9, List.map_cons, List.map_nil, List.sum_cons, List.sum_nil]
      norm_num
    have d6 : decide (isAnomalyAt flatSpike 6) = false := by
      refine decide_eq_false ?_
      rintro ⟨-, hlt⟩
      rw [v6, m6, show valueAt flatSpike 6 = 100 from rfl] at hlt
      norm_num at hlt
    have d7 : decide (isAnomalyAt flatSpike 7) = true := by
      refine decide_eq_true ⟨by norm_num, ?_⟩
      rw [v7, m7, show valueAt flatSpike 7 = 1000 from rfl]
      norm_num
    have d8 : decide (isAnomalyAt flatSpike 8) = false := by
      refine decide_eq_false ?_
      rintro ⟨-, hlt⟩
      rw [v8, m8, show valueAt flatSpike 8 = 100 from rfl] at hlt
      norm_num at hlt
    have d9 : decide (isAnomalyAt flatSpike 9) = false := by
      refine decide_eq_false ?_
      rintro ⟨-, hlt⟩
      rw [v9, m9, show valueAt flatSpike 9 = 100 from rfl] at hlt
      norm_num at hlt
    have dlow : ∀ i, i < 6 → decide (isAnomalyAt flatSpike i) = false := by
      intro i hi
      refine decide_eq_false ?_
      rintro ⟨h6, -⟩
      omega
    have hlen : flatSpike.length = 10 := rfl
    unfold detect
    rw [if_pos (by rw [hlen]; omega), hlen,
      show List.range 10 = [0, 1, 2, 3, 4, 5, 6, 7, 8, 9] from rfl]
    simp only [List.filter_cons, List.filter_nil, dlow 0 (by omega), dlow 1 (by omega),
      dlow 2 (by omega), dlow 3 (by omega), dlow 4 (by omega), dlow 5 (by omega),
      d6, d7, d8, d9, Bool.false_eq_true, if_false, if_true]

/-- Witness for C5: a concrete early index is unflagged on the concrete series. -/
theorem C5_detect_characterisation_witness : 3 ∉ detect flatSpike :=
  C5_detect_characterisation.2.1 flatSpike 3 (by norm_num)

lemma valueAt_replicate (c : ℚ) (n i : ℕ) (h : i < n) :
    valueAt (List.replicate n c) i = c := by
  unfold valueAt
  rw [List.getD_eq_getElem?_getD, List.getElem?_replicate, if_pos h]
  rfl

/-- C9: the out-of-band comparisons are strict and the rolling standard deviation
is the sample one, so a point whose squared deviation equals the band bound
`4 * var` is never flagged; in particular a constant series (rolling variance 0,
value equal to the rolling mean) produces no anomaly flags at all. -/
theorem C9_boundary_never_flagged :
    (∀ (xs : List ℚ) (i : ℕ),
      (valueAt xs i - rollingMean xs i) ^ 2 = 4 * rollingVar xs i → i ∉ detect xs)
    ∧ ∀ (c : ℚ) (n : ℕ), detect (List.replicate n c) = [] := by
  constructor
  · intro xs i h hm
    rw [mem_detect_iff] at hm
    have hlt := hm.2.2.2
    rw [h] at hlt
    exact lt_irrefl _ hlt
  · intro c n
    unfold detect
    by_cases h : 7 < (List.replicate n c).length
    · rw [if_pos h]
      rw [List.filter_eq_nil_iff]
      intro i hi
      rw [List.mem_range] at hi
      simp only [decide_eq_true_eq]
      rintro ⟨h6, hlt⟩
      rw [List.length_replicate] at h hi
      have hwin : windowAt (List.replicate n c) i = List.replicate 7 c := by
        unfold windowAt
        rw [List.take_replicate, List.drop_replicate]
        congr 1
        omega
      have hmean : rollingMean (List.replicate n c) i = c := by
        rw [rollingMean, hwin, List.sum_replicate, nsmul_eq_mul]
        norm_num
      have hvar : rollingVar (List.replicate n c) i = 0 := by
        simp only [rollingVar, hwin, hmean, List.map_replicate, sub_self]
        norm_num
      rw [hmean, hvar, valueAt_replicate c n i hi] at hlt
      simp at hlt
    · rw [if_neg h]

/-- Witness for C9: index 7 of the constant 10-day series sits exactly on the band
boundary (both sides are 0) and is not flagged. -/
theorem C9_boundary_never_flagged_witness :
    7 ∉ detect (List.replicate 10 (100 : ℚ)) := by
  refine C9_boundary_never_flagged.1 (List.replicate 10 (100 : ℚ)) 7 ?_
  have hwin : windowAt (List.replicate 10 (100 : ℚ)) 7 = List.replicate 7 100 := rfl
  have hmean : rollingMean (List.replicate 10 (100 : ℚ)) 7 = 100 := by
    rw [rollingMean, hwin, List.sum_replicate, nsmul_eq_mul]
    norm_num
  have hvar : rollingVar (List.replicate 10 (100 : ℚ)) 7 = 0 := by
    simp only [rollingVar, hwin, hmean, List.map_replicate, sub_self]
    norm_num
  rw [hmean, hvar, valueAt_replicate 100 10 7 (by omega)]
  norm_num

end Dash
